import Mathlib

/-
Shallow embedding of the SLMonitor repository
(src/python/desc/monitor/monitor.py and src/python/desc/monitor/CreateTruthDB.py)
and proofs about the claims of its specification.

External scientific libraries (lsst.sims, sncosmo, astropy, numpy, pandas,
sqlalchemy) are modelled as abstract function parameters; the glue logic of the
two source files is translated directly.  Numeric values are idealized as
rationals.
-/

set_option autoImplicit false

/- ============================================================
   Embedding of monitor.py, class LightCurve
   ============================================================ -/

/-- Python exceptions that the embedded code can raise.  `valueError` models an
explicit `raise ValueError(msg)`; `nameError` models the interpreter error
raised when a local variable is read before any assignment (as happens to
`fs_info` in the coordinate branch of `build_lightcurve_from_db`);
`attributeError` models reading a `self.` attribute that was never set (as
happens to `self.lightcurve` when `fp_table_dir` is `None`); `indexError`
models an out-of-bounds `[0]` index. -/
inductive PyError where
  | valueError (msg : String)
  | nameError (nm : String)
  | attributeError (nm : String)
  | indexError (nm : String)
deriving DecidableEq

/-- One row of the Object table returned by `dbConn.objectFromId` /
`dbConn.objectFromRaDec`; only the fields the source reads. -/
structure ObjRow where
  objectId : Nat
  ra : ℚ
  dec : ℚ
deriving DecidableEq

/-- One row of the ForcedSource join returned by
`dbConn.all_fs_visits_from_id`; only the fields the source reads.
`obs_start` is kept as the raw timestamp string that `astropy.time.Time`
receives. -/
structure FsRow where
  filter : String
  obs_start : String
  visit_id : Nat
  psf_flux : ℚ
  psf_flux_err : ℚ
deriving DecidableEq

/-- The database connection used by `LightCurve` (`self.dbConn_lc`): its three
query methods, modelled as abstract functions of their arguments. -/
structure DBConn where
  objectFromId : Nat → List ObjRow
  all_fs_visits_from_id : Nat → List FsRow
  objectFromRaDec : ℚ → ℚ → ℚ → List ObjRow

/-- Trace entry: one database lookup performed during
`build_lightcurve_from_db` (used to state that validation errors are raised
before any lookup). -/
inductive DBCall where
  | objectFromId (objid : Nat)
  | allFsVisitsFromId (objid : Nat)
  | objectFromRaDec (ra dec tol : ℚ)
deriving DecidableEq

/-- The astropy table built by `build_lightcurve_from_db` (column-per-field).
`zp`/`zpsys` are the fixed placeholder zeropoint values the source attaches. -/
structure LCTable where
  bandpass : List String
  obsHistId : List Nat
  mjd : List ℚ
  ra : List ℚ
  dec : List ℚ
  flux : List ℚ
  flux_error : List ℚ
  zp : List ℚ
  zpsys : List String
deriving DecidableEq

/-- Lines 144-157 of monitor.py: assemble the light-curve table from `obj_info`
and `fs_info`.  `toMJD` models `astropy.time.Time(·, scale=utc).mjd`, the
conversion of the raw timestamp to a uniform (UTC, MJD) time scale.
`obj_info[ra][0]` on an empty result is an index error. -/
def assembleTable (toMJD : String → ℚ) (obj_info : List ObjRow)
    (fs_info : List FsRow) : Except PyError LCTable :=
  let num_results := fs_info.length
  match obj_info with
  | [] => Except.error (PyError.indexError "obj_info")
  | o :: _ =>
      Except.ok
        { bandpass := fs_info.map (fun r => "lsst" ++ r.filter)
          obsHistId := fs_info.map (fun r => r.visit_id)
          mjd := fs_info.map (fun r => toMJD r.obs_start)
          ra := List.replicate num_results o.ra
          dec := List.replicate num_results o.dec
          flux := fs_info.map (fun r => r.psf_flux)
          flux_error := fs_info.map (fun r => r.psf_flux_err)
          zp := List.replicate num_results 25
          zpsys := List.replicate num_results "ab" }

deriving instance DecidableEq for Except

/-- Everything `build_lightcurve_from_db` produces: the table (or the raised
exception), the database lookups it performed, in order, and the values it
passed to `print` (line 142 prints the ambiguous `obj_info`). -/
structure BuildResult where
  result : Except PyError LCTable
  dbCalls : List DBCall
  printed : List (List ObjRow)
deriving DecidableEq

/-- Lines 121-157 of monitor.py, `LightCurve.build_lightcurve_from_db`.
The source validates the selector arguments, then binds the locals `obj_info`
and `fs_info` in the `objid` branch, but in the `ra_dec` branch binds only
`obj_info`: reaching `num_results = len(fs_info)` there raises a NameError
because `fs_info` was never assigned.  The default `tol` in the source is
0.005. -/
def build_lightcurve_from_db (db : DBConn) (toMJD : String → ℚ)
    (objid : Option Nat) (ra_dec : Option (ℚ × ℚ)) (tol : ℚ) : BuildResult :=
  match objid, ra_dec with
  | none, none =>
      { result := Except.error
          (PyError.valueError "Must specify either objid or ra,dec location.")
        dbCalls := []
        printed := [] }
  | some _, some _ =>
      { result := Except.error
          (PyError.valueError "Please specify only one of objid or ra,dec location.")
        dbCalls := []
        printed := [] }
  | some oid, none =>
      let obj_info := db.objectFromId oid
      let fs_info := db.all_fs_visits_from_id oid
      { result := assembleTable toMJD obj_info fs_info
        dbCalls := [DBCall.objectFromId oid, DBCall.allFsVisitsFromId oid]
        printed := [] }
  | none, some rd =>
      let obj_info := db.objectFromRaDec rd.1 rd.2 tol
      if obj_info.length = 0 then
        { result := Except.error
            (PyError.valueError "No objects within specified ra,dec range.")
          dbCalls := [DBCall.objectFromRaDec rd.1 rd.2 tol]
          printed := [] }
      else if obj_info.length > 1 then
        -- the ambiguity is only printed; execution then reaches
        -- `num_results = len(fs_info)` with `fs_info` unbound
        { result := Except.error (PyError.nameError "fs_info")
          dbCalls := [DBCall.objectFromRaDec rd.1 rd.2 tol]
          printed := [obj_info] }
      else
        { result := Except.error (PyError.nameError "fs_info")
          dbCalls := [DBCall.objectFromRaDec rd.1 rd.2 tol]
          printed := [] }

/-- The `self.lightcurve`-relevant state of a `LightCurve` instance.
`lightcurve = none` means the attribute was never set (reading it raises an
attribute error); `some none` is the Python value `None`; `some (some t)` is a
built table. -/
structure LightCurveState where
  lightcurve : Option (Option LCTable)
deriving DecidableEq

/-- Lines 50-86 of monitor.py, `LightCurve.__init__`, restricted to the
`lightcurve` attribute: it is initialized (to `None`) only inside the
`if fp_table_dir is not None` block, so a purely database-backed instance
(`fp_table_dir=None`, the default) never gets the attribute. -/
def LightCurve.init (fp_table_dir : Option String) : LightCurveState :=
  match fp_table_dir with
  | none => { lightcurve := none }
  | some _ => { lightcurve := some none }

/-- The method call `self.build_lightcurve_from_db(...)` as a state
transformer: the only mutation in the method body is the final
`self.lightcurve = Table(...)`, so when an exception is raised the instance
state is exactly what it was before the call. -/
def runBuild (db : DBConn) (toMJD : String → ℚ) (st : LightCurveState)
    (objid : Option Nat) (ra_dec : Option (ℚ × ℚ)) (tol : ℚ) :
    LightCurveState × BuildResult :=
  let b := build_lightcurve_from_db db toMJD objid ra_dec tol
  match b.result with
  | Except.ok t => ({ lightcurve := some (some t) }, b)
  | Except.error _ => (st, b)

/-- The figure returned by `sncosmo.plot_lc`, modelled as an opaque tag of the
table it renders. -/
inductive Figure where
  | plot_lc (t : LCTable)
deriving DecidableEq

/-- Lines 159-168 of monitor.py, `LightCurve.visualize_lightcurve`: reading
`self.lightcurve` on an instance that never set it raises an attribute error;
the explicit guard raises the not-yet-built message when it is `None`;
otherwise the stored table is rendered and the figure returned. -/
def visualize_lightcurve (st : LightCurveState) : Except PyError Figure :=
  match st.lightcurve with
  | none => Except.error (PyError.attributeError "lightcurve")
  | some none =>
      Except.error (PyError.valueError "No lightcurve yet. Use build_lightcurve first.")
  | some (some t) => Except.ok (Figure.plot_lc t)

/- ============================================================
   Embedding of CreateTruthDB.py, class TrueStars
   ============================================================ -/

/-- The observation metadata for one visit, as read by `get_true_stars` from
`obs_metadata.OpsimMetaData`: the visit id, the bandpass filter name, and the
five-sigma survey depth. -/
structure ObsMetaData where
  obsHistID : Nat
  filter : String
  fiveSigmaDepth : ℚ
deriving DecidableEq

/-- One star returned by the `TruthCatalogPoint` catalog query: the columns
the source reads, plus `gmag`, the g-band magnitude column that the SQL
constraint `gmag > 11` filters on. -/
structure StarRow where
  uniqueId : Nat
  raJ2000 : ℚ
  decJ2000 : ℚ
  sedFilepath : String
  phoSimMagNorm : ℚ
  galacticAv : ℚ
  gmag : ℚ
deriving DecidableEq

/-- One row of the accumulated `star_df` truth table (post type-coercion, so
the numeric columns are numeric). -/
structure TrueRow where
  uniqueId : Nat
  ra : ℚ
  dec : ℚ
  filter : String
  true_flux : ℚ
  true_flux_error : ℚ
  obsHistId : Nat
deriving DecidableEq

/-- The environment of `TrueStars.get_true_stars`: the star catalog behind
`self.dbConn`, and the external library routines it delegates to, modelled as
abstract functions.
* `inRegion` is the spatial cut the catalog machinery applies from
  `obs_metadata` (field of view / bound length);
* `obsGen` is `self.obs_gen.getObservationMetaData(obsHistID=..., ...)[0]`
  with the fixed sky-region arguments absorbed;
* `magForSed` is the magnitude `BandpassDict.magArrayForSedList` computes for
  one SED (`sedFilepath`, `phoSimMagNorm`, `galacticAv`) in one bandpass;
* `pow10` is `np.power(10, ·)`;
* `calcSNR_m5` is `lsst.sims.photUtils.SignalToNoise.calcSNR_m5` for one
  magnitude, one bandpass and one five-sigma depth, with the default
  `PhotometricParameters()` (a constant in the source) absorbed; the source
  uses only the first component (`snr`) of its return value. -/
structure TruthEnv where
  catalog : List StarRow
  inRegion : ObsMetaData → StarRow → Bool
  obsGen : Nat → ObsMetaData
  magForSed : String → ℚ → ℚ → String → ℚ
  pow10 : ℚ → ℚ
  calcSNR_m5 : ℚ → String → ℚ → ℚ

/-- Lines 117-119 of CreateTruthDB.py: the `TruthCatalogPoint` query for one
visit, with the SQL constraint `gmag > 11`. -/
def queryStars (env : TruthEnv) (obs : ObsMetaData) : List StarRow :=
  env.catalog.filter (fun s => env.inRegion obs s && decide (s.gmag > 11))

/-- `mag_array[bp]` for a SED list built from `chunk` (lines 132-138):
the per-star magnitudes in bandpass `bp`. -/
def magArrayFor (env : TruthEnv) (chunk : List StarRow) (bp : String) : List ℚ :=
  chunk.map (fun s => env.magForSed s.sedFilepath s.phoSimMagNorm s.galacticAv bp)

/-- Line 142: `flux_array = np.power(10, -0.4*(mag_array[visit_filter] - 22.5))`
(elementwise; -0.4 = -(2/5) and 22.5 = 45/2). -/
def fluxArrayFor (env : TruthEnv) (chunk : List StarRow) (bp : String) : List ℚ :=
  (magArrayFor env chunk bp).map (fun m => env.pow10 (-(2/5) * (m - 45/2)))

/-- Lines 144-147: the per-star `snr` array from `calcSNR_m5`. -/
def snrArrayFor (env : TruthEnv) (chunk : List StarRow) (bp : String)
    (m5 : ℚ) : List ℚ :=
  (magArrayFor env chunk bp).map (fun m => env.calcSNR_m5 m bp m5)

/-- Lines 141-159: the `visit_df` rows appended for one visit.  `sedsChunk` is
the chunk the SED list (and hence `mag_array`) was built from; the star
columns come from the current visit's `chunk_data` while the flux columns come
from `mag_array`.  The `np.array([...]).T` construction requires all columns
to have equal length (they do whenever the current chunk equals `sedsChunk`,
which the source's comment asserts); the embedding pairs them positionally. -/
def visitRows (env : TruthEnv) (sedsChunk : List StarRow)
    (obs : ObsMetaData) : List TrueRow :=
  let chunk := queryStars env obs
  let flux := fluxArrayFor env sedsChunk obs.filter
  let err := List.zipWith (fun f s => f / s) flux
      (snrArrayFor env sedsChunk obs.filter obs.fiveSigmaDepth)
  (chunk.zip (flux.zip err)).map (fun p =>
    { uniqueId := p.1.uniqueId
      ra := p.1.raJ2000
      dec := p.1.decJ2000
      filter := obs.filter
      true_flux := p.2.1
      true_flux_error := p.2.2
      obsHistId := obs.obsHistID })

/-- The loop state of `get_true_stars`: `sedsChunk = some c` models
`seds_loaded = True` with the SED list / `mag_array` built from chunk `c`
(`none` models `seds_loaded = False`); `star_df` is the accumulated table;
`sedLoads` instruments how many times the `SedList` construction (lines
131-139) has executed. -/
structure TruthState where
  sedsChunk : Option (List StarRow)
  star_df : List TrueRow
  sedLoads : Nat
deriving DecidableEq

/-- One iteration of the `for obs_metadata in obs_metadata_list` loop (lines
112-172): query the chunk, build the SED list from it if not yet loaded, and
append this visit's rows.  (The `convert_objects` numeric coercions are
identities in the typed embedding; `bp_indices` is computed by the source but
never used.) -/
def visitStep (env : TruthEnv) (st : TruthState) (obs : ObsMetaData) : TruthState :=
  match st.sedsChunk with
  | none =>
      let chunk := queryStars env obs
      { sedsChunk := some chunk
        star_df := st.star_df ++ visitRows env chunk obs
        sedLoads := st.sedLoads + 1 }
  | some c =>
      { sedsChunk := some c
        star_df := st.star_df ++ visitRows env c obs
        sedLoads := st.sedLoads }

/-- Lines 65-174 of CreateTruthDB.py, `TrueStars.get_true_stars`, for an
explicit visit list (the `for_obsHistIds=None` default instead reads the
bundled CSV `../data/selectedVisits.csv`, which is outside the embedded
state).  The first loop builds `obs_metadata_list` by mapping `obsGen`; the
second loop is folded by `visitStep` from the empty table with SEDs not yet
loaded. -/
def get_true_stars (env : TruthEnv) (for_obsHistIds : List Nat) : TruthState :=
  (for_obsHistIds.map env.obsGen).foldl (visitStep env)
    { sedsChunk := none, star_df := [], sedLoads := 0 }

/-- Lines 176-190 of CreateTruthDB.py, `TrueStars.write_to_db`: the sqlite
file is modelled as an association list from table name to rows.  The source
calls `self.star_df.to_sql('stars', disk_engine)` with the literal string
`'stars'`: the `table_name` parameter (default `'stars'`) is accepted but
never used. -/
def write_to_db (star_df : List TrueRow) (table_name : String) :
    List (String × List TrueRow) :=
  [("stars", star_df)]

/-- Reading one table back from the file-backed store. -/
def readTable (db : List (String × List TrueRow)) (nm : String) :
    Option (List TrueRow) :=
  (db.find? (fun p => p.1 == nm)).map (fun p => p.2)

/-- The row `get_true_stars` produces for star `s` in visit `obs` when the
visit's chunk coincides with the chunk the SED list was built from. -/
def rowOf (env : TruthEnv) (obs : ObsMetaData) (s : StarRow) : TrueRow :=
  { uniqueId := s.uniqueId
    ra := s.raJ2000
    dec := s.decJ2000
    filter := obs.filter
    true_flux := env.pow10 (-(2/5) *
      (env.magForSed s.sedFilepath s.phoSimMagNorm s.galacticAv obs.filter - 45/2))
    true_flux_error := env.pow10 (-(2/5) *
        (env.magForSed s.sedFilepath s.phoSimMagNorm s.galacticAv obs.filter - 45/2)) /
      env.calcSNR_m5 (env.magForSed s.sedFilepath s.phoSimMagNorm s.galacticAv obs.filter)
        obs.filter obs.fiveSigmaDepth
    obsHistId := obs.obsHistID }

/-- The concatenation of all visits' rows when the SED chunk is `c`. -/
def visitRowsAll (env : TruthEnv) (c : List StarRow) :
    List ObsMetaData → List TrueRow
  | [] => []
  | o :: os => visitRows env c o ++ visitRowsAll env c os

/- ============================================================
   Concrete instances used by witnesses and counterexamples
   ============================================================ -/

/-- A trivial database connection (all queries empty). -/
def dbTriv : DBConn :=
  { objectFromId := fun _ => []
    all_fs_visits_from_id := fun _ => []
    objectFromRaDec := fun _ _ _ => [] }

/-- A connection whose coordinate lookup finds exactly one object and whose
forced-source table is nonempty. -/
def dbC4 : DBConn :=
  { objectFromId := fun _ => []
    all_fs_visits_from_id := fun _ =>
      [{ filter := "r", obs_start := "2022-01-01", visit_id := 11,
         psf_flux := 5, psf_flux_err := 1 }]
    objectFromRaDec := fun _ _ _ => [{ objectId := 3, ra := 53, dec := -28 }] }

/-- A connection whose coordinate lookup finds no object at ra = 0 and two
objects elsewhere. -/
def dbC5 : DBConn :=
  { objectFromId := fun _ => []
    all_fs_visits_from_id := fun _ => []
    objectFromRaDec := fun r _ _ =>
      if r = 0 then []
      else [{ objectId := 1, ra := 3, dec := 4 }, { objectId := 2, ra := 5, dec := 6 }] }

/-- A connection for a successful id-based assembly. -/
def dbC6 : DBConn :=
  { objectFromId := fun _ => [{ objectId := 7, ra := 1, dec := 2 }]
    all_fs_visits_from_id := fun _ =>
      [{ filter := "g", obs_start := "t0", visit_id := 9, psf_flux := 8, psf_flux_err := 2 }]
    objectFromRaDec := fun _ _ _ => [] }

/-- The table `dbC6` assembly produces (with the zero timestamp conversion). -/
def tblC6 : LCTable :=
  { bandpass := ["lsstg"], obsHistId := [9], mjd := [0], ra := [1], dec := [2]
    flux := [8], flux_error := [2], zp := [25], zpsys := ["ab"] }

/-- A one-row truth table. -/
def dfC7 : List TrueRow :=
  [{ uniqueId := 10, ra := 1, dec := 2, filter := "u",
     true_flux := 3, true_flux_error := 4, obsHistId := 7 }]

/-- A star passing the `gmag > 11` constraint. -/
def starW : StarRow :=
  { uniqueId := 42, raJ2000 := 1, decJ2000 := 2, sedFilepath := "sed",
    phoSimMagNorm := 20, galacticAv := 0, gmag := 12 }

/-- A concrete truth environment with one catalog star. -/
def envW : TruthEnv :=
  { catalog := [starW]
    inRegion := fun _ _ => true
    obsGen := fun i => { obsHistID := i, filter := "r", fiveSigmaDepth := 24 }
    magForSed := fun _ mn _ _ => mn
    pow10 := fun x => x
    calcSNR_m5 := fun m _ m5 => m5 - m }

/-- A star brighter than magnitude 11 (smaller magnitude). -/
def starBright : StarRow :=
  { uniqueId := 1, raJ2000 := 0, decJ2000 := 0, sedFilepath := "s",
    phoSimMagNorm := 10, galacticAv := 0, gmag := 10 }

/-- A star fainter than magnitude 11 (larger magnitude). -/
def starFaint : StarRow :=
  { uniqueId := 2, raJ2000 := 0, decJ2000 := 0, sedFilepath := "s",
    phoSimMagNorm := 12, galacticAv := 0, gmag := 12 }

/-- A truth environment whose catalog holds one bright and one faint star. -/
def envC8 : TruthEnv :=
  { catalog := [starBright, starFaint]
    inRegion := fun _ _ => true
    obsGen := fun i => { obsHistID := i, filter := "g", fiveSigmaDepth := 24 }
    magForSed := fun _ mn _ _ => mn
    pow10 := fun x => x
    calcSNR_m5 := fun _ _ _ => 1 }

/-- A fixed visit metadata record. -/
def obsC8 : ObsMetaData := { obsHistID := 1, filter := "g", fiveSigmaDepth := 24 }

/-- A truth environment with a single catalog star of the given g magnitude. -/
def envGmag (m : ℚ) : TruthEnv :=
  { catalog := [{ starBright with gmag := m }]
    inRegion := fun _ _ => true
    obsGen := fun i => { obsHistID := i, filter := "g", fiveSigmaDepth := 24 }
    magForSed := fun _ mn _ _ => mn
    pow10 := fun x => x
    calcSNR_m5 := fun _ _ _ => 1 }

/- ============================================================
   Helper lemmas about the get_true_stars loop
   ============================================================ -/

/-- Once the SED list is loaded from chunk `c`, the loop only appends
`visitRows env c` blocks and never reloads. -/
theorem foldl_visitStep_loaded (env : TruthEnv) (c : List StarRow)
    (obsList : List ObsMetaData) :
    ∀ (df : List TrueRow) (n : Nat),
      List.foldl (visitStep env)
          { sedsChunk := some c, star_df := df, sedLoads := n } obsList =
        { sedsChunk := some c, star_df := df ++ visitRowsAll env c obsList
          sedLoads := n } := by
  induction obsList with
  | nil => intro df n; simp [visitRowsAll]
  | cons o os ih =>
      intro df n
      have hstep : visitStep env
          { sedsChunk := some c, star_df := df, sedLoads := n } o =
          { sedsChunk := some c, star_df := df ++ visitRows env c o
            sedLoads := n } := rfl
      rw [List.foldl_cons, hstep, ih]
      simp [visitRowsAll, List.append_assoc]

/-- Characterization of `get_true_stars` on a nonempty visit list: the SED
chunk is the first visit's chunk, loaded exactly once, and the table is the
concatenation of the per-visit blocks. -/
theorem get_true_stars_cons (env : TruthEnv) (id0 : Nat) (rest : List Nat) :
    get_true_stars env (id0 :: rest) =
      { sedsChunk := some (queryStars env (env.obsGen id0))
        star_df := visitRowsAll env (queryStars env (env.obsGen id0))
          ((id0 :: rest).map env.obsGen)
        sedLoads := 1 } := by
  have hstep : visitStep env
      { sedsChunk := none, star_df := [], sedLoads := 0 } (env.obsGen id0) =
      { sedsChunk := some (queryStars env (env.obsGen id0))
        star_df := [] ++ visitRows env (queryStars env (env.obsGen id0)) (env.obsGen id0)
        sedLoads := 1 } := rfl
  rw [get_true_stars, List.map_cons, List.foldl_cons, hstep,
    foldl_visitStep_loaded]
  simp [visitRowsAll]

/-- Zipping a list against maps of itself pairs each element with its own
images. -/
theorem zip_map_map {α β γ : Type} (f : α → β) (g : α → γ) (l : List α) :
    l.zip ((l.map f).zip (l.map g)) = l.map (fun x => (x, f x, g x)) := by
  induction l with
  | nil => rfl
  | cons a t ih => simp [ih]

/-- `zipWith` of two maps of the same list is a map. -/
theorem zipWith_map_same {α β γ δ : Type} (op : β → γ → δ) (f : α → β)
    (g : α → γ) (l : List α) :
    List.zipWith op (l.map f) (l.map g) = l.map (fun x => op (f x) (g x)) := by
  induction l with
  | nil => rfl
  | cons a t ih => simp [ih]

/-- When the visit's chunk coincides with the SED chunk, the visit block is a
map of `rowOf` over the chunk. -/
theorem visitRows_self (env : TruthEnv) (obs : ObsMetaData) (c : List StarRow)
    (hc : queryStars env obs = c) :
    visitRows env c obs = c.map (rowOf env obs) := by
  simp only [visitRows, fluxArrayFor, snrArrayFor, magArrayFor, List.map_map, hc]
  rw [zipWith_map_same, zip_map_map, List.map_map]
  rfl

/-- Rows of any visit in the list are rows of the concatenation. -/
theorem mem_visitRowsAll (env : TruthEnv) (c : List StarRow) (r : TrueRow)
    (obsList : List ObsMetaData) (obs : ObsMetaData)
    (ho : obs ∈ obsList) (hr : r ∈ visitRows env c obs) :
    r ∈ visitRowsAll env c obsList := by
  induction obsList with
  | nil => cases ho
  | cons o os ih =>
      simp only [visitRowsAll, List.mem_append]
      rcases List.mem_cons.mp ho with h | h
      · subst h; exact Or.inl hr
      · exact Or.inr (ih h)

/- ============================================================
   Claim theorems
   ============================================================ -/

/-- Claim C1: in `TrueStars.get_true_stars`, for every visit and every star
returned by the catalog query, the computed true flux equals 10 raised to the
power -0.4 times (the star's magnitude in the visit's bandpass minus 22.5).
The hypothesis `hconst` states what the source's comment asserts (lines
129-130): every visit's catalog chunk equals the first visit's chunk, since
the sky position is fixed; the magnitude array is built from that chunk. -/
theorem C1_true_flux_formula (env : TruthEnv) (id0 : Nat) (rest : List Nat)
    (hconst : ∀ id ∈ id0 :: rest,
      queryStars env (env.obsGen id) = queryStars env (env.obsGen id0)) :
    ∀ id ∈ id0 :: rest, ∀ s ∈ queryStars env (env.obsGen id),
      ∃ r ∈ (get_true_stars env (id0 :: rest)).star_df,
        r.uniqueId = s.uniqueId ∧
        r.obsHistId = (env.obsGen id).obsHistID ∧
        r.filter = (env.obsGen id).filter ∧
        r.true_flux = env.pow10 (-(2/5) *
          (env.magForSed s.sedFilepath s.phoSimMagNorm s.galacticAv
            (env.obsGen id).filter - 45/2)) := by
  intro id hid s hs
  refine ⟨rowOf env (env.obsGen id) s, ?_, rfl, rfl, rfl, rfl⟩
  rw [get_true_stars_cons]
  refine mem_visitRowsAll env _ _ _ (env.obsGen id)
    (List.mem_map_of_mem env.obsGen hid) ?_
  rw [visitRows_self env (env.obsGen id) _ (hconst id hid)]
  refine List.mem_map_of_mem _ ?_
  rw [hconst id hid] at hs
  exact hs

/-- Witness for C1 at a concrete environment and visit list. -/
theorem C1_true_flux_formula_witness :
    (∀ id ∈ [7], queryStars envW (envW.obsGen id) = queryStars envW (envW.obsGen 7)) ∧
    (∀ id ∈ [7], ∀ s ∈ queryStars envW (envW.obsGen id),
      ∃ r ∈ (get_true_stars envW [7]).star_df,
        r.uniqueId = s.uniqueId ∧
        r.obsHistId = (envW.obsGen id).obsHistID ∧
        r.filter = (envW.obsGen id).filter ∧
        r.true_flux = envW.pow10 (-(2/5) *
          (envW.magForSed s.sedFilepath s.phoSimMagNorm s.galacticAv
            (envW.obsGen id).filter - 45/2))) :=
  ⟨by decide, C1_true_flux_formula envW 7 [] (by decide)⟩

/-- Claim C2: in `TrueStars.get_true_stars`, for every visit and every star,
the computed flux error equals the computed flux divided by the SNR returned
by `calcSNR_m5` for that star's magnitude, the visit's bandpass, and the
visit's five-sigma depth.  The hypothesis is the same fixed-sky-position
chunk-constancy assumption as for C1. -/
theorem C2_flux_error_formula (env : TruthEnv) (id0 : Nat) (rest : List Nat)
    (hconst : ∀ id ∈ id0 :: rest,
      queryStars env (env.obsGen id) = queryStars env (env.obsGen id0)) :
    ∀ id ∈ id0 :: rest, ∀ s ∈ queryStars env (env.obsGen id),
      ∃ r ∈ (get_true_stars env (id0 :: rest)).star_df,
        r.uniqueId = s.uniqueId ∧
        r.obsHistId = (env.obsGen id).obsHistID ∧
        r.true_flux_error = r.true_flux /
          env.calcSNR_m5
            (env.magForSed s.sedFilepath s.phoSimMagNorm s.galacticAv
              (env.obsGen id).filter)
            (env.obsGen id).filter (env.obsGen id).fiveSigmaDepth := by
  intro id hid s hs
  refine ⟨rowOf env (env.obsGen id) s, ?_, rfl, rfl, rfl⟩
  rw [get_true_stars_cons]
  refine mem_visitRowsAll env _ _ _ (env.obsGen id)
    (List.mem_map_of_mem env.obsGen hid) ?_
  rw [visitRows_self env (env.obsGen id) _ (hconst id hid)]
  refine List.mem_map_of_mem _ ?_
  rw [hconst id hid] at hs
  exact hs

/-- Witness for C2 at a concrete environment and visit list. -/
theorem C2_flux_error_formula_witness :
    (∀ id ∈ [9], queryStars envW (envW.obsGen id) = queryStars envW (envW.obsGen 9)) ∧
    (∀ id ∈ [9], ∀ s ∈ queryStars envW (envW.obsGen id),
      ∃ r ∈ (get_true_stars envW [9]).star_df,
        r.uniqueId = s.uniqueId ∧
        r.obsHistId = (envW.obsGen id).obsHistID ∧
        r.true_flux_error = r.true_flux /
          envW.calcSNR_m5
            (envW.magForSed s.sedFilepath s.phoSimMagNorm s.galacticAv
              (envW.obsGen id).filter)
            (envW.obsGen id).filter (envW.obsGen id).fiveSigmaDepth) :=
  ⟨by decide, C2_flux_error_formula envW 9 [] (by decide)⟩

/-- Claim C9: within one call to `get_true_stars`, the SED list and magnitude
array are computed at most once, during the first visit iteration, and the
same chunk (hence the same magnitude array) is in force after every prefix of
the visit loop. -/
theorem C9_seds_loaded_once (env : TruthEnv) (ids : List Nat) :
    (get_true_stars env ids).sedLoads ≤ 1 ∧
    ∀ id0 rest, ids = id0 :: rest →
      (get_true_stars env ids).sedLoads = 1 ∧
      (get_true_stars env ids).sedsChunk = some (queryStars env (env.obsGen id0)) ∧
      ∀ k : Nat, (get_true_stars env (ids.take (k + 1))).sedsChunk =
        some (queryStars env (env.obsGen id0)) := by
  constructor
  · cases ids with
    | nil => exact Nat.zero_le 1
    | cons a t => rw [get_true_stars_cons]
  · rintro id0 rest rfl
    refine ⟨?_, ?_, ?_⟩
    · rw [get_true_stars_cons]
    · rw [get_true_stars_cons]
    · intro k
      have htake : (id0 :: rest).take (k + 1) = id0 :: rest.take k := rfl
      rw [htake, get_true_stars_cons]

/-- Witness for C9 at a concrete environment and visit list. -/
theorem C9_seds_loaded_once_witness :
    (get_true_stars envW [3, 4]).sedLoads ≤ 1 ∧
    ∀ id0 rest, [3, 4] = id0 :: rest →
      (get_true_stars envW [3, 4]).sedLoads = 1 ∧
      (get_true_stars envW [3, 4]).sedsChunk =
        some (queryStars envW (envW.obsGen id0)) ∧
      ∀ k : Nat, (get_true_stars envW ([3, 4].take (k + 1))).sedsChunk =
        some (queryStars envW (envW.obsGen id0)) :=
  C9_seds_loaded_once envW [3, 4]

/-- Claim C3: `build_lightcurve_from_db` raises a ValueError with a
descriptive message whenever both an object id and a sky coordinate are
supplied, or neither is. -/
theorem C3_selector_validation (db : DBConn) (toMJD : String → ℚ)
    (objid : Option Nat) (ra_dec : Option (ℚ × ℚ)) (tol : ℚ)
    (h : (objid = none ∧ ra_dec = none) ∨ (objid ≠ none ∧ ra_dec ≠ none)) :
    ∃ msg : String,
      (build_lightcurve_from_db db toMJD objid ra_dec tol).result =
        Except.error (PyError.valueError msg) := by
  cases objid with
  | none =>
      cases ra_dec with
      | none => exact ⟨_, rfl⟩
      | some b =>
          rcases h with ⟨_, h2⟩ | ⟨h1, _⟩
          · exact absurd h2 (Option.some_ne_none b)
          · exact absurd rfl h1
  | some a =>
      cases ra_dec with
      | none =>
          rcases h with ⟨h1, _⟩ | ⟨_, h2⟩
          · exact absurd h1 (Option.some_ne_none a)
          · exact absurd rfl h2
      | some b => exact ⟨_, rfl⟩

/-- Witness for C3: calling with neither selector on a concrete connection. -/
theorem C3_selector_validation_witness :
    (((none : Option Nat) = none ∧ (none : Option (ℚ × ℚ)) = none) ∨
      ((none : Option Nat) ≠ none ∧ (none : Option (ℚ × ℚ)) ≠ none)) ∧
    ∃ msg : String,
      (build_lightcurve_from_db dbTriv (fun _ => 0) none none 1).result =
        Except.error (PyError.valueError msg) :=
  ⟨Or.inl ⟨rfl, rfl⟩,
    C3_selector_validation dbTriv (fun _ => 0) none none 1 (Or.inl ⟨rfl, rfl⟩)⟩

/-- Claim C10: whenever `build_lightcurve_from_db` raises its invalid-argument
error (both or neither selector supplied), the raise happens before any
database lookup (the lookup trace is empty) and `self.lightcurve` is left
unchanged. -/
theorem C10_validation_preserves_state (db : DBConn) (toMJD : String → ℚ)
    (st : LightCurveState) (objid : Option Nat) (ra_dec : Option (ℚ × ℚ))
    (tol : ℚ)
    (h : (objid = none ∧ ra_dec = none) ∨ (objid ≠ none ∧ ra_dec ≠ none)) :
    (runBuild db toMJD st objid ra_dec tol).1 = st ∧
    (∃ msg : String,
      (runBuild db toMJD st objid ra_dec tol).2.result =
        Except.error (PyError.valueError msg)) ∧
    (runBuild db toMJD st objid ra_dec tol).2.dbCalls = [] := by
  cases objid with
  | none =>
      cases ra_dec with
      | none => exact ⟨rfl, ⟨_, rfl⟩, rfl⟩
      | some b =>
          rcases h with ⟨_, h2⟩ | ⟨h1, _⟩
          · exact absurd h2 (Option.some_ne_none b)
          · exact absurd rfl h1
  | some a =>
      cases ra_dec with
      | none =>
          rcases h with ⟨h1, _⟩ | ⟨_, h2⟩
          · exact absurd h1 (Option.some_ne_none a)
          · exact absurd rfl h2
      | some b => exact ⟨rfl, ⟨_, rfl⟩, rfl⟩

/-- Witness for C10: calling with both selectors on a built instance. -/
theorem C10_validation_preserves_state_witness :
    (((some 1 : Option Nat) = none ∧ (some ((2 : ℚ), (3 : ℚ)) : Option (ℚ × ℚ)) = none) ∨
      ((some 1 : Option Nat) ≠ none ∧ (some ((2 : ℚ), (3 : ℚ)) : Option (ℚ × ℚ)) ≠ none)) ∧
    ((runBuild dbTriv (fun _ => 0) (LightCurve.init (some "fp")) (some 1)
        (some (2, 3)) 1).1 = LightCurve.init (some "fp") ∧
      (∃ msg : String,
        (runBuild dbTriv (fun _ => 0) (LightCurve.init (some "fp")) (some 1)
            (some (2, 3)) 1).2.result =
          Except.error (PyError.valueError msg)) ∧
      (runBuild dbTriv (fun _ => 0) (LightCurve.init (some "fp")) (some 1)
          (some (2, 3)) 1).2.dbCalls = []) :=
  ⟨Or.inr ⟨Option.some_ne_none 1, Option.some_ne_none (((2 : ℚ), (3 : ℚ)))⟩,
    C10_validation_preserves_state dbTriv (fun _ => 0) (LightCurve.init (some "fp"))
      (some 1) (some (2, 3)) 1
      (Or.inr ⟨Option.some_ne_none 1, Option.some_ne_none (((2 : ℚ), (3 : ℚ)))⟩)⟩

/-- Claim C4 (code bug): with a sky coordinate whose lookup finds exactly one
object, `build_lightcurve_from_db` never fetches the forced-source rows (the
only lookup performed is `objectFromRaDec`) and fails with a NameError on the
unassigned local `fs_info` instead of assembling the table. -/
theorem C4_coordinate_path_never_fetches :
    (dbC4.objectFromRaDec 53 (-28) 1).length = 1 ∧
    build_lightcurve_from_db dbC4 (fun _ => 0) none (some (53, -28)) 1 =
      { result := Except.error (PyError.nameError "fs_info")
        dbCalls := [DBCall.objectFromRaDec 53 (-28) 1]
        printed := [] } := by decide

/-- Claim C5 (code bug): with no matching object the no-match ValueError is
raised, as claimed; but with two matching objects the call does not merely log
and continue — after printing the matches it fails with a NameError on
`fs_info`, so an error is raised after all. -/
theorem C5_radec_lookup_errors :
    (build_lightcurve_from_db dbC5 (fun _ => 0) none (some (0, 0)) 1).result =
      Except.error (PyError.valueError "No objects within specified ra,dec range.") ∧
    build_lightcurve_from_db dbC5 (fun _ => 0) none (some (1, 0)) 1 =
      { result := Except.error (PyError.nameError "fs_info")
        dbCalls := [DBCall.objectFromRaDec 1 0 1]
        printed := [[{ objectId := 1, ra := 3, dec := 4 },
                     { objectId := 2, ra := 5, dec := 6 }]] } := by decide

/-- Claim C6 (code bug): on an instance built with `fp_table_dir=None` (the
database mode) the `lightcurve` attribute is never initialized, so calling
`visualize_lightcurve` before assembly raises an AttributeError, not the
not-yet-built ValueError; the ValueError only appears on file-mode instances,
and after a successful assembly the stored table is rendered and the figure
returned. -/
theorem C6_visualize_guard :
    visualize_lightcurve (LightCurve.init none) =
      Except.error (PyError.attributeError "lightcurve") ∧
    visualize_lightcurve (LightCurve.init (some "fp_tables")) =
      Except.error (PyError.valueError "No lightcurve yet. Use build_lightcurve first.") ∧
    (runBuild dbC6 (fun _ => 0) (LightCurve.init none) (some 7) none 1).1 =
      { lightcurve := some (some tblC6) } ∧
    visualize_lightcurve
        (runBuild dbC6 (fun _ => 0) (LightCurve.init none) (some 7) none 1).1 =
      Except.ok (Figure.plot_lc tblC6) := by decide

/-- Claim C7 (code bug): `write_to_db` passes the literal string `stars` to
`to_sql`, ignoring its `table_name` parameter: writing under the name `truth`
leaves no table named `truth` in the store, while the data sits verbatim under
`stars`. -/
theorem C7_table_name_ignored :
    readTable (write_to_db dfC7 "truth") "truth" = none ∧
    readTable (write_to_db dfC7 "truth") "stars" = some dfC7 := by decide

/-- Claim C8 counterexample: the source constraint is `gmag > 11`, which keeps
the fainter star (g magnitude 12) and drops the brighter one (g magnitude 10);
no fixed magnitude cutoff bounds the returned magnitudes from above, so the
query does not return only stars brighter than a fixed cutoff. -/
theorem C8_counterexample :
    queryStars envC8 obsC8 = [starFaint] ∧
    starBright ∈ envC8.catalog ∧ starBright.gmag < 11 ∧ starFaint.gmag > 11 ∧
    ¬ ∃ cutoff : ℚ, ∀ (env : TruthEnv) (obs : ObsMetaData),
        ∀ s ∈ queryStars env obs, s.gmag < cutoff := by
  refine ⟨by decide, by decide, by decide, by decide, ?_⟩
  rintro ⟨c, hc⟩
  have h11 : (11 : ℚ) < max c 11 + 1 :=
    lt_of_le_of_lt (le_max_right c 11) (lt_add_one _)
  have hmem : ({ starBright with gmag := max c 11 + 1 } : StarRow) ∈
      queryStars (envGmag (max c 11 + 1)) obsC8 := by
    simp only [queryStars, envGmag]
    refine List.mem_filter.mpr ⟨List.mem_cons_self _ _, ?_⟩
    simp [h11]
  have hlt := hc _ obsC8 _ hmem
  have hxc : c < max c 11 + 1 :=
    lt_of_le_of_lt (le_max_left c 11) (lt_add_one _)
  exact absurd hlt (lt_asymm hxc)

/-- Claim C8 (amended): for every visit processed by `get_true_stars`, the
star catalog query is constrained so that only stars with g magnitude greater
than 11 — fainter than the fixed cutoff, not brighter — are returned. -/
theorem C8_query_keeps_fainter_than_cutoff (env : TruthEnv) (obs : ObsMetaData)
    (s : StarRow) (hs : s ∈ queryStars env obs) : s.gmag > 11 := by
  simp only [queryStars] at hs
  have h := (List.mem_filter.mp hs).2
  rw [Bool.and_eq_true] at h
  exact of_decide_eq_true h.2

/-- Witness for the amended C8 at the concrete environment. -/
theorem C8_query_keeps_fainter_than_cutoff_witness :
    starFaint ∈ queryStars envC8 obsC8 ∧ starFaint.gmag > 11 :=
  ⟨by decide, C8_query_keeps_fainter_than_cutoff envC8 obsC8 starFaint (by decide)⟩
